import Mathlib

/-!
# Verification of the 2D geometry primitives of `src/geometry_helper.py`

A shallow embedding of the geometry kernel of the repository
(`src/geometry_helper.py`) together with proofs and refutations of the
frozen specification claims.

Modelling conventions:

* Python floats are modelled by real numbers `ℝ`; a 2D point or vector is a
  pair `ℝ × ℝ`, and a numpy `(N, 2)` array of points is a `List (ℝ × ℝ)`.
* A Python function that could signal failure only via a `raise` statement is
  embedded with return type `Except GeometryError _`: an `Except.error`
  value is the image of a `raise`, an `Except.ok` value the image of a
  normal return.  The bodies in `geometry_helper.py` contain no `raise`
  statement and no validation, so every branch of those embeddings is `ok`.
* `calculate_clockwise_rotated_2d_point` mutates its argument: the statement
  `points -= center_of_rotation` subtracts the pivot from the caller's numpy
  array in place, and the later `rotated_points += center_of_rotation` acts
  on the freshly created result array, not on the argument.  The embedding
  therefore returns a pair: the first component is the function's return
  value, the second the final contents of the caller's `points` array.
-/

/-- The error taxonomy of the specification (`InvalidShapeError`,
`DegenerateAxisError`).  No constructor of this type is ever produced by the
embedded code: `geometry_helper.py` defines no error class and contains no
`raise` statement. -/
inductive GeometryError : Type
  | invalidShape : GeometryError
  | degenerateAxis : GeometryError
deriving DecidableEq

/-- `np.deg2rad`: degrees to radians. -/
noncomputable def deg2rad (x : ℝ) : ℝ := x * Real.pi / 180

/-- `np.linalg.norm` of a 2-vector: the Euclidean norm. -/
noncomputable def linalg_norm (v : ℝ × ℝ) : ℝ := Real.sqrt (v.1 ^ 2 + v.2 ^ 2)

/-- `normalise_vector(vec)`: the body is the single line
`normalised_vec = vec / np.linalg.norm(vec)` — an unguarded componentwise
division by the Euclidean norm, returned normally.  There is no zero-length
check, so the sole branch is `Except.ok`.  (For the zero vector, numpy's
division produces non-finite components under a warning; the real-number
embedding places Lean's division-by-zero value there.  What matters for the
error-handling claims is the `ok` constructor: the call returns, it never
raises.) -/
noncomputable def normalise_vector (vec : ℝ × ℝ) : Except GeometryError (ℝ × ℝ) :=
  Except.ok (vec.1 / linalg_norm vec, vec.2 / linalg_norm vec)

/-- `calculate_vertices_of_axis_aligned_rectangle(center, width, height)`:
returns the four corners `center + (±width/2, ±height/2)` in the source's
order `a, b, c, d` = top-left, top-right, bottom-right, bottom-left.  The
body performs no validation of `width` or `height` and contains no `raise`,
so the sole branch is `Except.ok`. -/
noncomputable def calculate_vertices_of_axis_aligned_rectangle
    (center : ℝ × ℝ) (width height : ℝ) : Except GeometryError (List (ℝ × ℝ)) :=
  let half_width := 0.5 * width
  let half_height := 0.5 * height
  let a := (center.1 + -half_width, center.2 + half_height)
  let b := (center.1 + half_width, center.2 + half_height)
  let c := (center.1 + half_width, center.2 + -half_height)
  let d := (center.1 + -half_width, center.2 + -half_height)
  Except.ok [a, b, c, d]

/-- `calculate_clockwise_rotated_2d_point(points, angle_deg, center_of_rotation)`.

Source steps, in order:
1. `points -= center_of_rotation` — translates the caller's array in place;
2. `rotation_mat = [[cos a, sin a], [-sin a, cos a]]` with
   `a = np.deg2rad(angle_deg)` (the clockwise rotation matrix);
3. `rotated_points = np.matmul(rotation_mat, points.T).T` — a fresh array;
4. `rotated_points += center_of_rotation` — acts on the fresh array only.

The result is the pair `(return value, final contents of the caller's
"points" array)`: the second component stays translated by
`-center_of_rotation`, because step 4 never touches the argument. -/
noncomputable def calculate_clockwise_rotated_2d_point
    (points : List (ℝ × ℝ)) (angle_deg : ℝ) (center_of_rotation : ℝ × ℝ) :
    List (ℝ × ℝ) × List (ℝ × ℝ) :=
  let translated := points.map fun p =>
    (p.1 - center_of_rotation.1, p.2 - center_of_rotation.2)
  let angle := deg2rad angle_deg
  let rotated := translated.map fun p =>
    (Real.cos angle * p.1 + Real.sin angle * p.2,
     -Real.sin angle * p.1 + Real.cos angle * p.2)
  let result := rotated.map fun p =>
    (p.1 + center_of_rotation.1, p.2 + center_of_rotation.2)
  (result, translated)

/-- `calculate_vertices_of_rotated_rectangle(center, width, height, angle_deg)`:
axis-aligned vertices, then clockwise rotation about the centroid.  The
rotated array (the rotation's return value, `.1`) is returned; the local
`vertices` array is mutated by the rotation but never escapes. -/
noncomputable def calculate_vertices_of_rotated_rectangle
    (center : ℝ × ℝ) (width height angle_deg : ℝ) :
    Except GeometryError (List (ℝ × ℝ)) :=
  match calculate_vertices_of_axis_aligned_rectangle center width height with
  | Except.error e => Except.error e
  | Except.ok vertices =>
      Except.ok (calculate_clockwise_rotated_2d_point vertices angle_deg center).1

/-- `determine_overlap_between_aligned_segments(segment1, segment2)`:
`start_i, stop_i = min(segment_i), max(segment_i)` and then
`max(0, min(stop2, stop1) - max(start2, start1))`. -/
noncomputable def determine_overlap_between_aligned_segments
    (segment1 segment2 : ℝ × ℝ) : ℝ :=
  let start1 := min segment1.1 segment1.2
  let stop1 := max segment1.1 segment1.2
  let start2 := min segment2.1 segment2.2
  let stop2 := max segment2.1 segment2.2
  max 0 (min stop2 stop1 - max start2 start1)

/-- `get_projected_distance_of_2d_points_onto_axis(points, axis)`:
`np.dot(points, axis)`, the dot product of each row of `points` with `axis`.
The commented-out normalisation (`# axis = normalise_vector(axis)`) is not
executed: the axis is used as given. -/
noncomputable def get_projected_distance_of_2d_points_onto_axis
    (points : List (ℝ × ℝ)) (axis : ℝ × ℝ) : List ℝ :=
  points.map fun p => p.1 * axis.1 + p.2 * axis.2

/-- Unfolding lemma for the return value of the rotation: it is the map of
`p ↦ R · (p − c) + c` over the input, with `R` the clockwise matrix. -/
theorem rotate_fst_eq_map (points : List (ℝ × ℝ)) (angle_deg : ℝ) (c : ℝ × ℝ) :
    (calculate_clockwise_rotated_2d_point points angle_deg c).1 =
      points.map (fun p =>
        (Real.cos (deg2rad angle_deg) * (p.1 - c.1) +
           Real.sin (deg2rad angle_deg) * (p.2 - c.2) + c.1,
         -Real.sin (deg2rad angle_deg) * (p.1 - c.1) +
           Real.cos (deg2rad angle_deg) * (p.2 - c.2) + c.2)) := by
  simp only [calculate_clockwise_rotated_2d_point, List.map_map]
  rfl

theorem deg2rad_neg (x : ℝ) : deg2rad (-x) = -deg2rad x := by
  unfold deg2rad; ring

theorem deg2rad_zero : deg2rad 0 = 0 := by
  unfold deg2rad; ring

/-- **C4.** `determine_overlap_between_aligned_segments` realises the
specification formula `max(0, min(a.max, b.max) − max(a.min, b.min))` on
every pair of ordered intervals, and takes the values 1, 0, 1 on the three
example pairs ({0,2},{1,3}), ({0,1},{1,2}), ({0,5},{1,2}). -/
theorem overlap_formula_and_examples :
    (∀ a1 a2 b1 b2 : ℝ, a1 ≤ a2 → b1 ≤ b2 →
      determine_overlap_between_aligned_segments (a1, a2) (b1, b2) =
        max 0 (min a2 b2 - max a1 b1)) ∧
    determine_overlap_between_aligned_segments ((0 : ℝ), 2) (1, 3) = 1 ∧
    determine_overlap_between_aligned_segments ((0 : ℝ), 1) (1, 2) = 0 ∧
    determine_overlap_between_aligned_segments ((0 : ℝ), 5) (1, 2) = 1 := by
  refine ⟨fun a1 a2 b1 b2 ha hb => ?_, ?_, ?_, ?_⟩ <;>
    simp only [determine_overlap_between_aligned_segments]
  · rw [min_eq_left ha, max_eq_right ha, min_eq_left hb, max_eq_right hb,
      min_comm b2 a2, max_comm b1 a1]
  · norm_num [min_def, max_def]
  · norm_num [min_def, max_def]
  · norm_num [min_def, max_def]

/-- Witness for C4: the general formula of `overlap_formula_and_examples`
instantiated at the concrete ordered intervals (0,2) and (1,3). -/
theorem overlap_formula_and_examples_witness :
    determine_overlap_between_aligned_segments ((0 : ℝ), 2) (1, 3) =
      max 0 (min (2 : ℝ) 3 - max (0 : ℝ) 1) :=
  overlap_formula_and_examples.1 0 2 1 3 (by norm_num) (by norm_num)

/-- **C10.** Swapping the two endpoints of either argument segment leaves
the overlap returned by `determine_overlap_between_aligned_segments`
unchanged: the implementation sorts each segment with `min`/`max` first. -/
theorem overlap_endpoint_order_irrelevant :
    ∀ s1 s2 : ℝ × ℝ,
      determine_overlap_between_aligned_segments (s1.2, s1.1) s2 =
        determine_overlap_between_aligned_segments s1 s2 ∧
      determine_overlap_between_aligned_segments s1 (s2.2, s2.1) =
        determine_overlap_between_aligned_segments s1 s2 := by
  intro s1 s2
  constructor
  · simp only [determine_overlap_between_aligned_segments]
    rw [min_comm s1.2 s1.1, max_comm s1.2 s1.1]
  · simp only [determine_overlap_between_aligned_segments]
    rw [min_comm s2.2 s2.1, max_comm s2.2 s2.1]

/-- **C1 (code bug evidence).** `calculate_clockwise_rotated_2d_point` does
mutate its argument: at the concrete input `points = [(1, 0)]`,
`angle_deg = 0`, `center_of_rotation = (1, 1)`, the caller's array ends as
`[(0, -1)]` — translated by the negated pivot by the in-place
`points -= center_of_rotation` and never restored — which differs from the
original contents `[(1, 0)]`.  (The return value, first component, is a new
point set as claimed; the frame condition on the argument is what fails.) -/
theorem rotate_mutates_input_at_concrete_point :
    (calculate_clockwise_rotated_2d_point [((1 : ℝ), 0)] 0 (1, 1)).2 =
        [((0 : ℝ), -1)] ∧
      [((0 : ℝ), -1)] ≠ [((1 : ℝ), 0)] ∧
      (calculate_clockwise_rotated_2d_point [((1 : ℝ), 0)] 0 (1, 1)).1 =
        [((1 : ℝ), 0)] := by
  refine ⟨?_, by norm_num, ?_⟩
  · simp only [calculate_clockwise_rotated_2d_point, List.map_cons, List.map_nil]
    norm_num
  · rw [rotate_fst_eq_map]
    simp [deg2rad_zero]

/-- **C6.** The rotation is clockwise: the returned point set is exactly
`p ↦ R · (p − c) + c` with `R = [[cos θ, sin θ], [−sin θ, cos θ]]`, and
rotating `(1, 0)` by 90 degrees about the origin returns `(0, −1)`. -/
theorem rotate_clockwise_formula :
    (∀ (points : List (ℝ × ℝ)) (angle_deg : ℝ) (c : ℝ × ℝ),
      (calculate_clockwise_rotated_2d_point points angle_deg c).1 =
        points.map (fun p =>
          (Real.cos (deg2rad angle_deg) * (p.1 - c.1) +
             Real.sin (deg2rad angle_deg) * (p.2 - c.2) + c.1,
           -Real.sin (deg2rad angle_deg) * (p.1 - c.1) +
             Real.cos (deg2rad angle_deg) * (p.2 - c.2) + c.2))) ∧
    (calculate_clockwise_rotated_2d_point [((1 : ℝ), 0)] 90 (0, 0)).1 =
      [((0 : ℝ), -1)] := by
  refine ⟨rotate_fst_eq_map, ?_⟩
  have h90 : deg2rad 90 = Real.pi / 2 := by unfold deg2rad; ring
  rw [rotate_fst_eq_map]
  simp [h90, Real.cos_pi_div_two, Real.sin_pi_div_two]

/-- **C7.** Round trip: rotating any point set by θ and then the returned
result by −θ about the same pivot gives back the original coordinates
exactly (over the real-number embedding). -/
theorem rotate_round_trip :
    ∀ (points : List (ℝ × ℝ)) (angle_deg : ℝ) (c : ℝ × ℝ),
      (calculate_clockwise_rotated_2d_point
          ((calculate_clockwise_rotated_2d_point points angle_deg c).1)
          (-angle_deg) c).1 = points := by
  intro points angle_deg c
  rw [rotate_fst_eq_map, rotate_fst_eq_map, List.map_map]
  have hid : ∀ p : ℝ × ℝ,
      ((fun p : ℝ × ℝ =>
        (Real.cos (deg2rad (-angle_deg)) * (p.1 - c.1) +
           Real.sin (deg2rad (-angle_deg)) * (p.2 - c.2) + c.1,
         -Real.sin (deg2rad (-angle_deg)) * (p.1 - c.1) +
           Real.cos (deg2rad (-angle_deg)) * (p.2 - c.2) + c.2)) ∘
       (fun p : ℝ × ℝ =>
        (Real.cos (deg2rad angle_deg) * (p.1 - c.1) +
           Real.sin (deg2rad angle_deg) * (p.2 - c.2) + c.1,
         -Real.sin (deg2rad angle_deg) * (p.1 - c.1) +
           Real.cos (deg2rad angle_deg) * (p.2 - c.2) + c.2))) p = p := by
    intro p
    simp only [Function.comp_apply, deg2rad_neg, Real.cos_neg, Real.sin_neg]
    have h := Real.sin_sq_add_cos_sq (deg2rad angle_deg)
    refine Prod.ext ?_ ?_
    · show _ = p.1
      linear_combination (p.1 - c.1) * h
    · show _ = p.2
      linear_combination (p.2 - c.2) * h
  calc points.map _ = points.map id := List.map_congr_left fun p _ => hid p
    _ = points := List.map_id points

/-- **C8.** The rotation is rigid: the Euclidean distance of each returned
point from the pivot equals that of the corresponding input point, and
rotation by angle 0 returns the input coordinates unchanged. -/
theorem rotate_rigid_and_zero_identity :
    (∀ (points : List (ℝ × ℝ)) (angle_deg : ℝ) (c : ℝ × ℝ),
      ((calculate_clockwise_rotated_2d_point points angle_deg c).1).map
          (fun q => Real.sqrt ((q.1 - c.1) ^ 2 + (q.2 - c.2) ^ 2)) =
        points.map
          (fun p => Real.sqrt ((p.1 - c.1) ^ 2 + (p.2 - c.2) ^ 2))) ∧
    (∀ (points : List (ℝ × ℝ)) (c : ℝ × ℝ),
      (calculate_clockwise_rotated_2d_point points 0 c).1 = points) := by
  constructor
  · intro points angle_deg c
    rw [rotate_fst_eq_map, List.map_map]
    refine List.map_congr_left fun p _ => ?_
    simp only [Function.comp_apply]
    have h := Real.sin_sq_add_cos_sq (deg2rad angle_deg)
    congr 1
    linear_combination ((p.1 - c.1) ^ 2 + (p.2 - c.2) ^ 2) * h
  · intro points c
    rw [rotate_fst_eq_map]
    simp only [deg2rad_zero, Real.cos_zero, Real.sin_zero]
    have : ∀ p : ℝ × ℝ,
        (1 * (p.1 - c.1) + 0 * (p.2 - c.2) + c.1,
         -0 * (p.1 - c.1) + 1 * (p.2 - c.2) + c.2) = p := by
      intro p
      refine Prod.ext ?_ ?_ <;> · show _ = _; ring
    calc points.map _ = points.map id := List.map_congr_left fun p _ => this p
      _ = points := List.map_id points

/-- **C2 (counterexample).** On the zero vector, `normalise_vector` does not
raise: it returns normally (`Except.ok`), carrying the unguarded
division-by-zero payload — there is no `DegenerateAxisError` path in the
code.  (Under the real-number embedding `Real.sqrt 0 = 0` and `x / 0 = 0`;
in numpy the payload would be non-finite — either way the call returns a
value instead of raising.) -/
theorem normalise_vector_zero_returns_ok :
    normalise_vector ((0 : ℝ), 0) = Except.ok ((0 : ℝ), 0) := by
  simp only [normalise_vector, linalg_norm]
  norm_num

/-- **C2 (amended).** `normalise_vector` never raises: every input, the zero
vector included, yields an `Except.ok` result, the unguarded componentwise
division by the Euclidean norm.  For a vector of non-zero norm the returned
payload is a unit vector; for the zero vector the division is still
performed and a (garbage) value is returned instead of an error. -/
theorem normalise_vector_never_raises :
    (∀ v : ℝ × ℝ, ∃ w, normalise_vector v = Except.ok w) ∧
    (∀ x y : ℝ, x ^ 2 + y ^ 2 ≠ 0 →
      ∃ w, normalise_vector (x, y) = Except.ok w ∧ w.1 ^ 2 + w.2 ^ 2 = 1) := by
  constructor
  · intro v
    exact ⟨_, rfl⟩
  · intro x y h
    have hpos : 0 < x ^ 2 + y ^ 2 := lt_of_le_of_ne (by positivity) (Ne.symm h)
    have hs : 0 < Real.sqrt (x ^ 2 + y ^ 2) := Real.sqrt_pos.mpr hpos
    refine ⟨_, rfl, ?_⟩
    simp only [linalg_norm]
    rw [div_pow, div_pow, div_add_div_same, Real.sq_sqrt hpos.le]
    exact div_self h

/-- Witness for the amended C2 statement: at the concrete non-zero vector
`(3, 4)` the hypothesis `3² + 4² ≠ 0` holds and `normalise_vector` returns
`Except.ok` of a unit vector. -/
theorem normalise_vector_never_raises_witness :
    ((3 : ℝ) ^ 2 + 4 ^ 2 ≠ 0) ∧
      (∃ w, normalise_vector ((3 : ℝ), 4) = Except.ok w ∧
        w.1 ^ 2 + w.2 ^ 2 = 1) :=
  ⟨by norm_num, normalise_vector_never_raises.2 3 4 (by norm_num)⟩

/-- **C3 (counterexample).** At the malformed descriptor
centroid `(0, 0)`, width `−2` (non-positive), height `4`,
`calculate_vertices_of_axis_aligned_rectangle` does not raise an
`InvalidShapeError`: it silently returns the vertex set
`[(1, 2), (−1, 2), (−1, −2), (1, −2)]` (an inverted rectangle). -/
theorem axis_aligned_vertices_negative_width_returns_ok :
    calculate_vertices_of_axis_aligned_rectangle ((0 : ℝ), 0) (-2) 4 =
      Except.ok [((1 : ℝ), 2), (-1, 2), (-1, -2), (1, -2)] := by
  simp only [calculate_vertices_of_axis_aligned_rectangle]
  norm_num

/-- **C3 (amended).** Neither rectangle-vertex construction validates its
inputs: for every centroid, width, height and angle — non-positive
dimensions included — both `calculate_vertices_of_axis_aligned_rectangle`
and `calculate_vertices_of_rotated_rectangle` return `Except.ok` of a
vertex set; no error is ever raised. -/
theorem rectangle_vertex_constructors_never_raise :
    ∀ (c : ℝ × ℝ) (width height angle_deg : ℝ),
      (∃ vs, calculate_vertices_of_axis_aligned_rectangle c width height =
        Except.ok vs) ∧
      (∃ vs, calculate_vertices_of_rotated_rectangle c width height angle_deg =
        Except.ok vs) :=
  fun c width height angle_deg => ⟨⟨_, rfl⟩, ⟨_, rfl⟩⟩

/-- **C5.** `calculate_vertices_of_axis_aligned_rectangle ((0,0), 2, 4)`
returns exactly `[(-1, 2), (1, 2), (1, -2), (-1, -2)]` in the source's fixed
order, and in general the four returned corners are
`centroid + (±width/2, ±height/2)`, are symmetric about the centroid
(opposite corners sum to twice the centroid), and opposite corners differ by
exactly `(±width, ±height)`. -/
theorem axis_aligned_vertices_spec :
    calculate_vertices_of_axis_aligned_rectangle ((0 : ℝ), 0) 2 4 =
      Except.ok [((-1 : ℝ), 2), (1, 2), (1, -2), (-1, -2)] ∧
    ∀ (cx cy width height : ℝ), ∃ v0 v1 v2 v3 : ℝ × ℝ,
      calculate_vertices_of_axis_aligned_rectangle (cx, cy) width height =
        Except.ok [v0, v1, v2, v3] ∧
      v0 = (cx - width / 2, cy + height / 2) ∧
      v1 = (cx + width / 2, cy + height / 2) ∧
      v2 = (cx + width / 2, cy - height / 2) ∧
      v3 = (cx - width / 2, cy - height / 2) ∧
      v0.1 + v2.1 = 2 * cx ∧ v0.2 + v2.2 = 2 * cy ∧
      v1.1 + v3.1 = 2 * cx ∧ v1.2 + v3.2 = 2 * cy ∧
      v2.1 - v0.1 = width ∧ v2.2 - v0.2 = -height ∧
      v1.1 - v3.1 = width ∧ v1.2 - v3.2 = height := by
  constructor
  · simp only [calculate_vertices_of_axis_aligned_rectangle]
    norm_num
  · intro cx cy width height
    refine ⟨_, _, _, _, rfl, ?_, ?_, ?_, ?_, ?_, ?_, ?_, ?_, ?_, ?_, ?_, ?_⟩ <;>
      · first
        | · refine Prod.ext ?_ ?_ <;> · show _ = _; norm_num; try ring
        | · show _ = _; norm_num; try ring

/-- **C9.** `get_projected_distance_of_2d_points_onto_axis` performs no
normalisation: the result is exactly the sequence of dot products `p · axis`
for `p` in `points`, and scaling the axis by any scalar `k` scales every
returned projection by `k` (homogeneity of degree 1 in the axis — which a
normalising implementation would violate). -/
theorem projection_is_raw_dot_products :
    (∀ (points : List (ℝ × ℝ)) (axis : ℝ × ℝ),
      get_projected_distance_of_2d_points_onto_axis points axis =
        points.map (fun p => p.1 * axis.1 + p.2 * axis.2)) ∧
    (∀ (points : List (ℝ × ℝ)) (axis : ℝ × ℝ) (k : ℝ),
      get_projected_distance_of_2d_points_onto_axis points
          (k * axis.1, k * axis.2) =
        (get_projected_distance_of_2d_points_onto_axis points axis).map
          (fun t => k * t)) := by
  refine ⟨fun points axis => rfl, fun points axis k => ?_⟩
  simp only [get_projected_distance_of_2d_points_onto_axis, List.map_map]
  refine List.map_congr_left fun p _ => ?_
  simp only [Function.comp_apply]
  ring
